import Mathlib

/-!
Shallow embedding of the `uploading-to-bq` repository's budget-reshaping
pipeline (`src/upload_budget/parse_budget.py`) and of the forecast
pass-through path (`src/main.py`, `src/upload_forecast/upload_forecast.py`),
together with theorems settling the specification's claims about them.

A pandas `DataFrame` is modelled as a list of column names together with a
list of rows, each row a list of cells; a cell is a rational number, a
string, or null (NaN/None).
-/

namespace UploadBQ

/-- A cell of a table: numeric, text, or null (models NaN / None). -/
inductive Cell where
  | num (q : ℚ)
  | str (s : String)
  | null
deriving DecidableEq, Repr

/-- A flat table: column names plus rows of cells (models a pandas
DataFrame with a flat string column index). -/
structure Frame where
  cols : List String
  rows : List (List Cell)
deriving DecidableEq, Repr

/-- Error kinds raised by the reshaping pipeline, using the specification's
taxonomy names.  `insufficientColumns` models the IndexError raised by
`df.columns[3]` when fewer than 4 columns exist; `keyError` models the
pandas KeyError/ambiguity error from `set_index`/column selection when a
required label is not present exactly once; `malformedHeader` models the
error raised by `pd.to_datetime` on an unparseable month header. -/
inductive ParseErr where
  | insufficientColumns
  | keyError
  | malformedHeader
deriving DecidableEq, Repr

/-- English month abbreviations accepted by `pandas.to_datetime`. -/
def monthAbbrev : List (String × Nat) :=
  [("Jan", 1), ("Feb", 2), ("Mar", 3), ("Apr", 4), ("May", 5), ("Jun", 6),
   ("Jul", 7), ("Aug", 8), ("Sep", 9), ("Oct", 10), ("Nov", 11), ("Dec", 12)]

/-- Split a character list at every occurrence of the separator character
(the `str.split(sep)` convention: `n` separators give `n+1` parts, empty
parts included). -/
def splitOnChar (c : Char) : List Char → List (List Char)
  | [] => [[]]
  | x :: xs =>
    let r := splitOnChar c xs
    if x = c then [] :: r
    else
      match r with
      | h :: t => (x :: h) :: t
      | [] => [[x]]

/-- Parse a non-empty all-digit character list as a decimal natural
number. -/
def parseDigits (l : List Char) : Option Nat :=
  if l ≠ [] ∧ l.all Char.isDigit then
    some (l.foldl (fun a c => a * 10 + (c.toNat - 48)) 0)
  else none

/-- Model of `pandas.to_datetime` on the de-facto common month-header
forms named by the specification: `YYYY-MM-DD`, `YYYY-MM` and `Mon-YYYY`
(month abbreviation).  Returns `(year, month, day)`; any other string is
unparseable and yields `none` (to_datetime raises). -/
def toDatetime (s : String) : Option (Nat × Nat × Nat) :=
  match splitOnChar '-' s.toList with
  | [y, m, d] =>
    match parseDigits y, parseDigits m, parseDigits d with
    | some yn, some mn, some dn =>
      if y.length = 4 ∧ 1 ≤ mn ∧ mn ≤ 12 ∧ 1 ≤ dn ∧ dn ≤ 31 then
        some (yn, mn, dn)
      else none
    | _, _, _ => none
  | [a, b] =>
    match parseDigits a, parseDigits b with
    | some yn, some mn =>
      if a.length = 4 ∧ 1 ≤ mn ∧ mn ≤ 12 then some (yn, mn, 1) else none
    | _, _ =>
      match (monthAbbrev.filter (fun p => p.1.toList = a)).head?, parseDigits b with
      | some p, some yn => if b.length = 4 then some (yn, p.2, 1) else none
      | _, _ => none
  | _ => none

/-- Zero-pad a natural number to two digits (strftime `%m`). -/
def pad2 (n : Nat) : String :=
  if n < 10 then "0" ++ toString n else toString n

/-- Zero-pad a natural number to four digits (strftime `%Y`). -/
def pad4 (n : Nat) : String :=
  if n < 10 then "000" ++ toString n
  else if n < 100 then "00" ++ toString n
  else if n < 1000 then "0" ++ toString n
  else toString n

/-- Model of `.to_period('M').strftime('%Y-%m')` applied to a parsed date:
keep year and month, drop the day. -/
def formatYM (y m : Nat) : String := pad4 y ++ "-" ++ pad2 m

/-- The composite-key label names the first four columns are renamed to. -/
def labelNames : List String :=
  ["metric", "payment_type", "subscription_length", "company_size"]

/-- Apply a python-dict rename mapping to one column name: the dict is a
list of (old, new) pairs where a later binding of the same key overrides an
earlier one, and every column whose name equals a key is renamed. -/
def applyRename (dict : List (String × String)) (s : String) : String :=
  match (dict.filter (fun p => p.1 = s)).getLast? with
  | some p => p.2
  | none => s

/-- The four-part composite row key produced by `set_index`. -/
structure Label4 where
  metric : Cell
  payment_type : Cell
  subscription_length : Cell
  company_size : Cell
deriving DecidableEq, Repr

/-- The frame after `_rename_and_index`: a 4-level row index, the
remaining (month) column names, and the data region (one row per raw data
row, one cell per month column). -/
structure IndexedFrame where
  index : List Label4
  monthCols : List String
  data : List (List Cell)
deriving DecidableEq, Repr

/-- Stage 1 of `parse_budget`: rename the first four columns to the
canonical label names (a by-name pandas `rename` seeded positionally from
`df.columns[0..3]`) and `set_index` on those four names.  Fewer than four
columns is the IndexError from `df.columns[3]`; a canonical label name not
present exactly once after the rename is the `set_index` KeyError. -/
def rename_and_index (f : Frame) : Except ParseErr IndexedFrame :=
  match f.cols with
  | c0 :: c1 :: c2 :: c3 :: _rest =>
    let dict := [(c0, "metric"), (c1, "payment_type"),
                 (c2, "subscription_length"), (c3, "company_size")]
    let renamed := f.cols.map (applyRename dict)
    if labelNames.all (fun n => renamed.count n = 1) then
      let pos : String → Nat := fun n => renamed.findIdx (fun c => c = n)
      let keep := (List.range renamed.length).filter
        (fun i => !(labelNames.contains (renamed.getD i "")))
      Except.ok
        { index := f.rows.map (fun r =>
            { metric := r.getD (pos "metric") Cell.null,
              payment_type := r.getD (pos "payment_type") Cell.null,
              subscription_length := r.getD (pos "subscription_length") Cell.null,
              company_size := r.getD (pos "company_size") Cell.null }),
          monthCols := keep.map (fun i => renamed.getD i ""),
          data := f.rows.map (fun r => keep.map (fun i => r.getD i Cell.null)) }
    else Except.error ParseErr.keyError
  | _ => Except.error ParseErr.insufficientColumns

/-- The frame after transposition: months are the row axis (already
normalized to `YYYY-MM` strings and named `ds`), the 4-part labels are the
column axis, and `data` is month-major (`data[j][i]` is raw row `i`'s value
in month `j`). -/
structure TransposedFrame where
  ds : List String
  labels : List Label4
  data : List (List Cell)
deriving DecidableEq, Repr

/-- Stage 2 of `parse_budget`: transpose, parse every month header with
`pd.to_datetime` (all-or-nothing: one unparseable header aborts the stage),
and normalize each to `YYYY-MM`. -/
def transpose_and_prepare (f : IndexedFrame) : Except ParseErr TransposedFrame :=
  match f.monthCols.mapM toDatetime with
  | none => Except.error ParseErr.malformedHeader
  | some dates =>
    Except.ok
      { ds := dates.map (fun p => formatYM p.1 p.2.1),
        labels := f.index,
        data := (List.range f.monthCols.length).map
          (fun j => f.data.map (fun r => r.getD j Cell.null)) }

/-- A column name of the melted frame: either a plain string, or the
4-tuple `('ds','','','')` that `reset_index` gives the former index when
the columns are a 4-level MultiIndex. -/
inductive ColName where
  | plain (s : String)
  | dsTuple
deriving DecidableEq, Repr

/-- One row of the melted frame, before the `metric` column is dropped. -/
structure MeltRow where
  ds : String
  metric : Cell
  payment_type : Cell
  subscription_length : Cell
  company_size : Cell
  value : Cell
deriving DecidableEq, Repr

/-- One row after dropping `metric` and coercing the value to numeric. -/
structure CleanRow where
  ds : String
  payment_type : Cell
  subscription_length : Cell
  company_size : Cell
  billings : Option ℚ
deriving DecidableEq, Repr

/-- The melted frame: column names plus clean rows. -/
structure CleanFrame where
  cols : List ColName
  rows : List CleanRow
deriving DecidableEq, Repr

/-- Columns produced by `melt` on the transposed frame: the id column
keeps its tuple name, the 4 column-index levels become one column each
(named after the level names set by `set_index`), plus `value`. -/
def meltColumns : List ColName :=
  [ColName.dsTuple, ColName.plain "metric", ColName.plain "payment_type",
   ColName.plain "subscription_length", ColName.plain "company_size",
   ColName.plain "value"]

/-- Column names after `drop(columns=['metric'])` and the two renames in
`_melt_budget` (`('ds','','','')` to `ds`, `value` to `billings`). -/
def cleanColumns : List ColName :=
  ((meltColumns.filter (fun c => c != ColName.plain "metric")).map
      (fun c => if c = ColName.dsTuple then ColName.plain "ds" else c)).map
    (fun c => if c = ColName.plain "value" then ColName.plain "billings" else c)

/-- Model of `float(...)` as used by `pandas.to_numeric` on a string:
optional sign, digits with at most one decimal point.  Thousands
separators, letters, empty strings are unparseable. -/
def parseFloat? (s : String) : Option ℚ :=
  let chars := s.toList
  let sgn : ℚ := if chars.head? = some '-' then -1 else 1
  let body := if chars.head? = some '-' ∨ chars.head? = some '+' then
    chars.drop 1 else chars
  match splitOnChar '.' body with
  | [i] =>
    match parseDigits i with
    | some n => some (sgn * n)
    | none => none
  | [i, fr] =>
    if i = [] ∧ fr = [] then none
    else if (i = [] ∨ (parseDigits i).isSome) ∧ (fr = [] ∨ (parseDigits fr).isSome) then
      some (sgn * (((parseDigits i).getD 0 : ℚ) +
        ((parseDigits fr).getD 0 : ℚ) / (10 ^ fr.length)))
    else none
  | _ => none

/-- Model of `pd.to_numeric(_, errors='coerce')` on one cell: numbers pass
through, parseable numeric text is converted, everything else (including
null) becomes null, never an error. -/
def toNumeric (c : Cell) : Option ℚ :=
  match c with
  | Cell.num q => some q
  | Cell.str s => parseFloat? s
  | Cell.null => none

/-- The raw `melt` of the transposed frame: column-major (for each label
column in order, for each month row in order), exactly pandas' stacking
order, producing one row per (label-combination, month) pair. -/
def meltRows (t : TransposedFrame) : List MeltRow :=
  (t.labels.zip (List.range t.labels.length)).flatMap (fun li =>
    (t.ds.zip (t.data.map (fun r => r.getD li.2 Cell.null))).map (fun dv =>
      { ds := dv.1, metric := li.1.metric, payment_type := li.1.payment_type,
        subscription_length := li.1.subscription_length,
        company_size := li.1.company_size, value := dv.2 }))

/-- Stage 3 of `parse_budget`: `reset_index` + `melt` keyed on the `ds`
column, drop the `metric` column, rename the id and value columns, and
coerce `billings` to numeric with unparseable values becoming null. -/
def melt_budget (t : TransposedFrame) : CleanFrame :=
  { cols := cleanColumns,
    rows := (meltRows t).map (fun r =>
      { ds := r.ds, payment_type := r.payment_type,
        subscription_length := r.subscription_length,
        company_size := r.company_size, billings := toNumeric r.value }) }

/-- One fully-enriched output row (the 11 output fields). -/
structure MetaRow where
  ds : String
  payment_type : Cell
  subscription_length : Cell
  company_size : Cell
  billings : Option ℚ
  payment_status : String
  previous_subscription_length : Cell
  license_count : ℚ
  billings_per_license : ℚ
  last_updated : String
  data_type : String
deriving DecidableEq, Repr

/-- The enriched frame: column names plus enriched rows. -/
structure MetaFrame where
  cols : List ColName
  rows : List MetaRow
deriving DecidableEq, Repr

/-- Stage 4a of `parse_budget`: append the six constant/default metadata
columns, in the assignment order of the source. -/
def add_metadata (f : CleanFrame) : MetaFrame :=
  { cols := f.cols ++
      [ColName.plain "payment_status", ColName.plain "previous_subscription_length",
       ColName.plain "license_count", ColName.plain "billings_per_license",
       ColName.plain "last_updated", ColName.plain "data_type"],
    rows := f.rows.map (fun r =>
      { ds := r.ds, payment_type := r.payment_type,
        subscription_length := r.subscription_length,
        company_size := r.company_size, billings := r.billings,
        payment_status := "Completed",
        previous_subscription_length := Cell.null,
        license_count := 0, billings_per_license := 0,
        last_updated := "2025-03-31", data_type := "budget" }) }

/-- Look up a named column's value in an enriched row. -/
def MetaRow.getCol (r : MetaRow) (name : String) : Option Cell :=
  if name = "ds" then some (Cell.str r.ds)
  else if name = "payment_status" then some (Cell.str r.payment_status)
  else if name = "payment_type" then some r.payment_type
  else if name = "company_size" then some r.company_size
  else if name = "subscription_length" then some r.subscription_length
  else if name = "previous_subscription_length" then some r.previous_subscription_length
  else if name = "license_count" then some (Cell.num r.license_count)
  else if name = "billings_per_license" then some (Cell.num r.billings_per_license)
  else if name = "billings" then
    some (match r.billings with | some q => Cell.num q | none => Cell.null)
  else if name = "last_updated" then some (Cell.str r.last_updated)
  else if name = "data_type" then some (Cell.str r.data_type)
  else none

/-- The fixed output column sequence of `_reorder_columns`. -/
def outputColumns : List String :=
  ["ds", "payment_status", "payment_type", "company_size", "subscription_length",
   "previous_subscription_length", "license_count", "billings_per_license",
   "billings", "last_updated", "data_type"]

/-- Stage 4b of `parse_budget`: `df[cols]`, selecting the fixed column
sequence; a missing column would be a pandas KeyError. -/
def reorder_columns (f : MetaFrame) : Except ParseErr Frame :=
  if outputColumns.all (fun n => f.cols.contains (ColName.plain n)) then
    Except.ok
      { cols := outputColumns,
        rows := f.rows.map (fun r =>
          outputColumns.map (fun n => (r.getCol n).getD Cell.null)) }
  else Except.error ParseErr.keyError

/-- The reshaping transform `parse_budget`: the four stages in order. -/
def parse_budget (raw : Frame) : Except ParseErr Frame := do
  let df_indexed ← rename_and_index raw
  let df_t ← transpose_and_prepare df_indexed
  let df_melted := melt_budget df_t
  let df_meta := add_metadata df_melted
  reorder_columns df_meta

/-- One invocation of the warehouse write collaborator
`upload_to_bigquery`. -/
structure WriteCall where
  data_frame : Frame
  dataset_id : String
  table_id : String
  write_disposition : String
deriving DecidableEq, Repr

/-- Model of `main` in `src/main.py`: the table read from the forecast CSV
(the parameter) is handed unmodified to `upload_to_bigquery` with the
fixed identifiers and `WRITE_TRUNCATE`.  The returned list is the sequence
of write calls the run makes. -/
def mainRun (csv : Frame) : List WriteCall :=
  [{ data_frame := csv, dataset_id := "test_estrazdas",
     table_id := "nordpass_b2b_forecast", write_disposition := "WRITE_TRUNCATE" }]

/-- Model of `upload_forecast` in `src/upload_forecast/upload_forecast.py`:
the CSV is read but the `upload_to_bigquery` call is commented out, so the
run makes no write call. -/
def upload_forecast (_csv : Frame) : List WriteCall := []

/-! ## Helper lemmas -/

theorem getD_mem_of_lt {α : Type} (l : List α) (d : α) {n : Nat}
    (h : n < l.length) : l.getD n d ∈ l := by
  rw [List.getD_eq_getElem?_getD, List.getElem?_eq_getElem h]
  exact List.getElem_mem h

theorem getD_range_map {α : Type} (l : List α) (d : α) :
    (List.range l.length).map (fun j => l.getD j d) = l := by
  induction l with
  | nil => simp
  | cons a t ih =>
    rw [List.length_cons, List.range_succ_eq_map, List.map_cons, List.map_map]
    simp only [List.getD_cons_zero]
    have hc : ((fun j => (a :: t).getD j d) ∘ Nat.succ) = fun j => t.getD j d := by
      funext j
      simp [Nat.succ_eq_add_one, List.getD_cons_succ]
    rw [hc, ih]

theorem mapM'_some_length {α β : Type} {f : α → Option β} :
    ∀ {l : List α} {l' : List β}, l.mapM' f = some l' → l'.length = l.length := by
  intro l
  induction l with
  | nil =>
    intro l' h
    simp only [List.mapM', Option.pure_def, Option.some.injEq] at h
    simp [← h]
  | cons a t ih =>
    intro l' h
    simp only [List.mapM', Option.pure_def, Option.bind_eq_bind,
      Option.bind_eq_some, Option.some.injEq] at h
    obtain ⟨b, _, bs, hbs, rfl⟩ := h
    simp [ih hbs]

theorem mapM_some_length {α β : Type} {f : α → Option β} {l : List α}
    {l' : List β} (h : l.mapM f = some l') : l'.length = l.length :=
  mapM'_some_length (by rwa [List.mapM'_eq_mapM])

theorem mapM'_some_getD {α β : Type} {f : α → Option β} (d : α) (d' : β) :
    ∀ {l : List α} {l' : List β}, l.mapM' f = some l' →
      ∀ {j : Nat}, j < l.length → f (l.getD j d) = some (l'.getD j d') := by
  intro l
  induction l with
  | nil => intro l' _ j hj; simp at hj
  | cons a t ih =>
    intro l' h j hj
    simp only [List.mapM', Option.pure_def, Option.bind_eq_bind,
      Option.bind_eq_some, Option.some.injEq] at h
    obtain ⟨b, hb, bs, hbs, rfl⟩ := h
    cases j with
    | zero => simpa using hb
    | succ k =>
      simp only [List.getD_cons_succ]
      exact ih hbs (by simpa using hj)

theorem mapM_some_getD {α β : Type} {f : α → Option β} (d : α) (d' : β)
    {l : List α} {l' : List β} (h : l.mapM f = some l')
    {j : Nat} (hj : j < l.length) : f (l.getD j d) = some (l'.getD j d') :=
  mapM'_some_getD d d' (by rwa [List.mapM'_eq_mapM]) hj

theorem mapM'_eq_none_of_mem {α β : Type} {f : α → Option β} :
    ∀ {l : List α}, (∃ x ∈ l, f x = none) → l.mapM' f = none := by
  intro l
  induction l with
  | nil => intro h; simp at h
  | cons a t ih =>
    intro h
    obtain ⟨x, hx, hfx⟩ := h
    rcases List.mem_cons.1 hx with rfl | hxt
    · simp [List.mapM', hfx]
    · cases hfa : f a with
      | none => simp [List.mapM', hfa]
      | some b => simp [List.mapM', hfa, ih ⟨x, hxt, hfx⟩]

theorem mapM_eq_none_of_mem {α β : Type} {f : α → Option β} {l : List α}
    (h : ∃ x ∈ l, f x = none) : l.mapM f = none := by
  rw [← List.mapM'_eq_mapM]
  exact mapM'_eq_none_of_mem h

/-! ## Structural characterization of stage 1 on well-formed columns -/

/-- The first four column names are pairwise distinct. -/
abbrev DistinctFirst4 (c0 c1 c2 c3 : String) : Prop :=
  c1 ≠ c0 ∧ c2 ≠ c0 ∧ c3 ≠ c0 ∧ c2 ≠ c1 ∧ c3 ≠ c1 ∧ c3 ≠ c2

/-- The month column names clash neither with the first four original
names nor with the canonical label names. -/
abbrev GoodMonths (c0 c1 c2 c3 : String) (months : List String) : Prop :=
  ∀ m ∈ months, m ≠ c0 ∧ m ≠ c1 ∧ m ≠ c2 ∧ m ≠ c3 ∧ m ∉ labelNames

theorem applyRename_months (c0 c1 c2 c3 m : String)
    (h0 : m ≠ c0) (h1 : m ≠ c1) (h2 : m ≠ c2) (h3 : m ≠ c3) :
    applyRename [(c0, "metric"), (c1, "payment_type"),
      (c2, "subscription_length"), (c3, "company_size")] m = m := by
  simp [applyRename, h0.symm, h1.symm, h2.symm, h3.symm]

theorem renamed_cols_eq (c0 c1 c2 c3 : String) (months : List String)
    (hd : DistinctFirst4 c0 c1 c2 c3) (hm : GoodMonths c0 c1 c2 c3 months) :
    (c0 :: c1 :: c2 :: c3 :: months).map (applyRename
        [(c0, "metric"), (c1, "payment_type"),
         (c2, "subscription_length"), (c3, "company_size")]) =
      labelNames ++ months := by
  obtain ⟨h01, h02, h03, h12, h13, h23⟩ := hd
  simp only [List.map_cons]
  rw [List.map_congr_left (fun m hmem => applyRename_months c0 c1 c2 c3 m
    (hm m hmem).1 (hm m hmem).2.1 (hm m hmem).2.2.1 (hm m hmem).2.2.2.1)]
  simp [labelNames, applyRename, h01, h02, h03, h12, h13, h23]

theorem getD_labelNames_append (months : List String) (j : Nat) :
    (labelNames ++ months).getD (4 + j) "" = months.getD j "" := by
  rw [List.getD_eq_getElem?_getD, List.getElem?_append, List.getD_eq_getElem?_getD]
  have hl : labelNames.length = 4 := rfl
  have h1 : ¬ (4 + j < labelNames.length) := by omega
  rw [if_neg h1]
  have h2 : 4 + j - labelNames.length = j := by omega
  rw [h2]

theorem keep_eq (months : List String) (hm : ∀ m ∈ months, m ∉ labelNames) :
    (List.range ((labelNames ++ months).length)).filter
        (fun i => !(labelNames.contains ((labelNames ++ months).getD i ""))) =
      (List.range months.length).map (fun j => 4 + j) := by
  have h4 : (labelNames ++ months).length = 4 + months.length := by
    simp [labelNames]
    omega
  rw [h4, List.range_add, List.filter_append]
  have hfirst : (List.range 4).filter
      (fun i => !(labelNames.contains ((labelNames ++ months).getD i ""))) = [] := by
    have : List.range 4 = [0, 1, 2, 3] := rfl
    rw [this]
    simp [labelNames]
  rw [hfirst, List.nil_append, List.filter_map]
  have hsec : ((List.range months.length).filter
      ((fun i => !(labelNames.contains ((labelNames ++ months).getD i ""))) ∘
        (fun x => 4 + x))) = List.range months.length := by
    rw [List.filter_eq_self]
    intro j hj
    simp only [Function.comp_apply, getD_labelNames_append months j]
    have hmem : months.getD j "" ∈ months :=
      getD_mem_of_lt months "" (List.mem_range.1 hj)
    simpa using hm _ hmem
  rw [hsec]

theorem rename_and_index_ok (c0 c1 c2 c3 : String) (months : List String)
    (rows : List (List Cell))
    (hd : DistinctFirst4 c0 c1 c2 c3) (hm : GoodMonths c0 c1 c2 c3 months) :
    rename_and_index ⟨c0 :: c1 :: c2 :: c3 :: months, rows⟩ =
      Except.ok
        { index := rows.map (fun r =>
            { metric := r.getD 0 Cell.null,
              payment_type := r.getD 1 Cell.null,
              subscription_length := r.getD 2 Cell.null,
              company_size := r.getD 3 Cell.null }),
          monthCols := months,
          data := rows.map (fun r =>
            (List.range months.length).map (fun j => r.getD (4 + j) Cell.null)) } := by
  have hren := renamed_cols_eq c0 c1 c2 c3 months hd hm
  have hmlbl : ∀ m ∈ months, m ∉ labelNames := fun m hmem => (hm m hmem).2.2.2.2
  have hcount : ∀ n ∈ labelNames, (labelNames ++ months).count n = 1 := by
    intro n hn
    have hz : months.count n = 0 := by
      rw [List.count_eq_zero]
      intro hmem
      exact hmlbl n hmem hn
    rw [List.count_append, hz]
    fin_cases hn <;> decide
  have hkeep := keep_eq months hmlbl
  simp only [rename_and_index]
  rw [hren]
  have hall : labelNames.all (fun n => (labelNames ++ months).count n = 1) = true := by
    rw [List.all_eq_true]
    intro n hn
    simpa using hcount n hn
  rw [if_pos (by simpa using hall)]
  have hpos0 : (labelNames ++ months).findIdx (fun c => c = "metric") = 0 := by
    simp [labelNames, List.findIdx_cons]
  have hpos1 : (labelNames ++ months).findIdx (fun c => c = "payment_type") = 1 := by
    simp [labelNames, List.findIdx_cons]
  have hpos2 : (labelNames ++ months).findIdx (fun c => c = "subscription_length") = 2 := by
    simp [labelNames, List.findIdx_cons]
  have hpos3 : (labelNames ++ months).findIdx (fun c => c = "company_size") = 3 := by
    simp [labelNames, List.findIdx_cons]
  simp only [Except.ok.injEq, IndexedFrame.mk.injEq]
  refine ⟨?_, ?_, ?_⟩
  · rw [hpos0, hpos1, hpos2, hpos3]
  · rw [hkeep, List.map_map]
    have hcomp : ((fun i => (labelNames ++ months).getD i "") ∘ (fun j => 4 + j)) =
        (fun j => months.getD j "") := by
      funext j
      rw [Function.comp_apply, getD_labelNames_append months j]
    rw [hcomp, getD_range_map]
  · rw [hkeep]
    apply List.map_congr_left
    intro r _
    rw [List.map_map]
    rfl

theorem mapM'_some_of_forall_isSome {α β : Type} {f : α → Option β} :
    ∀ {l : List α}, (∀ x ∈ l, (f x).isSome) → ∃ l', l.mapM' f = some l' := by
  intro l
  induction l with
  | nil => intro _; exact ⟨[], rfl⟩
  | cons a t ih =>
    intro h
    obtain ⟨b, hb⟩ := Option.isSome_iff_exists.1 (h a (List.mem_cons_self a t))
    obtain ⟨bs, hbs⟩ := ih (fun x hx => h x (List.mem_cons_of_mem a hx))
    exact ⟨b :: bs, by simp [List.mapM', hb, hbs]⟩

theorem mapM_some_of_forall_isSome {α β : Type} {f : α → Option β} {l : List α}
    (h : ∀ x ∈ l, (f x).isSome) : ∃ l', l.mapM f = some l' := by
  obtain ⟨l', hl'⟩ := mapM'_some_of_forall_isSome h
  exact ⟨l', by rwa [List.mapM'_eq_mapM] at hl'⟩

theorem length_flatMap_const {α β : Type} (l : List α) (f : α → List β) (m : Nat)
    (h : ∀ x ∈ l, (f x).length = m) : (l.flatMap f).length = l.length * m := by
  induction l with
  | nil => simp
  | cons a t ih =>
    rw [List.flatMap_cons, List.length_append, h a (List.mem_cons_self a t),
      ih (fun x hx => h x (List.mem_cons_of_mem a hx)), List.length_cons]
    ring

/-! ## Stage lemmas for the remaining stages -/

theorem exceptBind_ok {ε α β : Type} (a : α) (f : α → Except ε β) :
    (Except.ok a >>= f : Except ε β) = f a := rfl

theorem exceptBind_error {ε α β : Type} (e : ε) (f : α → Except ε β) :
    (Except.error e >>= f : Except ε β) = Except.error e := rfl

theorem transpose_and_prepare_ok (f : IndexedFrame) (dates : List (Nat × Nat × Nat))
    (h : f.monthCols.mapM toDatetime = some dates) :
    transpose_and_prepare f = Except.ok
      { ds := dates.map (fun p => formatYM p.1 p.2.1),
        labels := f.index,
        data := (List.range f.monthCols.length).map
          (fun j => f.data.map (fun r => r.getD j Cell.null)) } := by
  simp only [transpose_and_prepare, h]

theorem meltRows_length (t : TransposedFrame) (hdl : t.data.length = t.ds.length) :
    (meltRows t).length = t.labels.length * t.ds.length := by
  rw [meltRows, length_flatMap_const _ _ t.ds.length
    (fun li _ => by simp [List.length_zip, hdl])]
  simp

theorem parse_budget_ok_of_stages (raw : Frame) (ifr : IndexedFrame)
    (t : TransposedFrame)
    (h1 : rename_and_index raw = Except.ok ifr)
    (h2 : transpose_and_prepare ifr = Except.ok t) :
    parse_budget raw = Except.ok
      { cols := outputColumns,
        rows := (add_metadata (melt_budget t)).rows.map (fun r =>
          outputColumns.map (fun n => (r.getCol n).getD Cell.null)) } := by
  simp only [parse_budget, h1, exceptBind_ok, h2, reorder_columns]
  have hcolsEq : (add_metadata (melt_budget t)).cols = cleanColumns ++
      [ColName.plain "payment_status", ColName.plain "previous_subscription_length",
       ColName.plain "license_count", ColName.plain "billings_per_license",
       ColName.plain "last_updated", ColName.plain "data_type"] := rfl
  rw [hcolsEq, if_pos (by decide)]

theorem parse_ok_cols (raw : Frame) (out : Frame)
    (h : parse_budget raw = Except.ok out) : out.cols = outputColumns := by
  simp only [parse_budget] at h
  cases hr : rename_and_index raw with
  | error e => rw [hr, exceptBind_error] at h; cases h
  | ok ifr =>
    rw [hr, exceptBind_ok] at h
    cases ht : transpose_and_prepare ifr with
    | error e => rw [ht, exceptBind_error] at h; cases h
    | ok t =>
      rw [ht, exceptBind_ok] at h
      simp only [reorder_columns] at h
      have hcolsEq : (add_metadata (melt_budget t)).cols = cleanColumns ++
          [ColName.plain "payment_status", ColName.plain "previous_subscription_length",
           ColName.plain "license_count", ColName.plain "billings_per_license",
           ColName.plain "last_updated", ColName.plain "data_type"] := rfl
      rw [hcolsEq, if_pos (by decide)] at h
      cases h
      rfl

theorem getD_map_of_lt {α β : Type} (f : α → β) (l : List α) (d : β) (d' : α)
    {n : Nat} (h : n < l.length) : (l.map f).getD n d = f (l.getD n d') := by
  rw [List.getD_eq_getElem?_getD, List.getElem?_map, List.getElem?_eq_getElem h,
    List.getD_eq_getElem?_getD, List.getElem?_eq_getElem h]
  rfl

/-! ## Claims -/

/-- C1: for every well-formed raw budget table — first four column names
pairwise distinct, month column names clashing neither with the first four
original names nor with the canonical label names, and every month header
date-parseable — with `R` data rows and `M` month columns, `parse_budget`
succeeds and produces exactly `R * M` output rows; no row is dropped or
duplicated by the four stages. -/
theorem reshape_row_count (c0 c1 c2 c3 : String) (months : List String)
    (rows : List (List Cell))
    (hd : DistinctFirst4 c0 c1 c2 c3) (hm : GoodMonths c0 c1 c2 c3 months)
    (hdt : ∀ m ∈ months, (toDatetime m).isSome) :
    ∃ out, parse_budget ⟨c0 :: c1 :: c2 :: c3 :: months, rows⟩ = Except.ok out ∧
      out.rows.length = rows.length * months.length := by
  have h1 := rename_and_index_ok c0 c1 c2 c3 months rows hd hm
  obtain ⟨dates, hdates⟩ := mapM_some_of_forall_isSome hdt
  have h2 := transpose_and_prepare_ok
    { index := rows.map (fun r =>
        { metric := r.getD 0 Cell.null,
          payment_type := r.getD 1 Cell.null,
          subscription_length := r.getD 2 Cell.null,
          company_size := r.getD 3 Cell.null }),
      monthCols := months,
      data := rows.map (fun r =>
        (List.range months.length).map (fun j => r.getD (4 + j) Cell.null)) }
    dates hdates
  refine ⟨_, parse_budget_ok_of_stages _ _ _ h1 h2, ?_⟩
  have hdlen : dates.length = months.length := mapM_some_length hdates
  simp only [add_metadata, melt_budget, List.length_map]
  rw [meltRows_length]
  · simp [hdlen]
  · simp [hdlen]

/-- C1 witness: the spec's end-to-end scenario, 1 data row and 2 month
columns, gives exactly 1 × 2 = 2 output rows. -/
theorem reshape_row_count_witness :
    ∃ out, parse_budget ⟨["A", "B", "C", "D", "2025-01", "2025-02"],
        [[Cell.str "M1", Cell.str "Monthly", Cell.str "1mo", Cell.str "SMB",
          Cell.num 100, Cell.num 200]]⟩ = Except.ok out ∧
      out.rows.length =
        [[Cell.str "M1", Cell.str "Monthly", Cell.str "1mo", Cell.str "SMB",
          Cell.num 100, Cell.num 200]].length * ["2025-01", "2025-02"].length :=
  reshape_row_count "A" "B" "C" "D" ["2025-01", "2025-02"]
    [[Cell.str "M1", Cell.str "Monthly", Cell.str "1mo", Cell.str "SMB",
      Cell.num 100, Cell.num 200]]
    (by decide) (by decide) (by decide)

/-- C2: whenever `parse_budget` succeeds, the output table's columns are
exactly, in order: ds, payment_status, payment_type, company_size,
subscription_length, previous_subscription_length, license_count,
billings_per_license, billings, last_updated, data_type. -/
theorem output_columns_exact (raw out : Frame)
    (h : parse_budget raw = Except.ok out) :
    out.cols = ["ds", "payment_status", "payment_type", "company_size",
      "subscription_length", "previous_subscription_length", "license_count",
      "billings_per_license", "billings", "last_updated", "data_type"] :=
  parse_ok_cols raw out h

/-- C2 witness: a concrete 4-column table parses successfully and its
output carries the canonical column sequence. -/
theorem output_columns_exact_witness :
    ({ cols := outputColumns, rows := [] } : Frame).cols =
      ["ds", "payment_status", "payment_type", "company_size",
       "subscription_length", "previous_subscription_length", "license_count",
       "billings_per_license", "billings", "last_updated", "data_type"] :=
  output_columns_exact ⟨["a", "b", "c", "d"], []⟩ ⟨outputColumns, []⟩ rfl

/-- C4: for every raw table with fewer than 4 columns, `parse_budget`
fails with the `InsufficientColumnsError` kind (the IndexError raised by
accessing `df.columns[3]`). -/
theorem insufficient_columns_error (f : Frame) (h : f.cols.length < 4) :
    parse_budget f = Except.error ParseErr.insufficientColumns := by
  obtain ⟨cols, rows⟩ := f
  cases cols with
  | nil => rfl
  | cons c0 t0 =>
    cases t0 with
    | nil => rfl
    | cons c1 t1 =>
      cases t1 with
      | nil => rfl
      | cons c2 t2 =>
        cases t2 with
        | nil => rfl
        | cons c3 t3 => simp at h; omega

/-- C4 witness: a concrete 3-column table fails with
`InsufficientColumnsError`. -/
theorem insufficient_columns_error_witness :
    (⟨["a", "b", "c"], []⟩ : Frame).cols.length < 4 ∧
      parse_budget ⟨["a", "b", "c"], []⟩ =
        Except.error ParseErr.insufficientColumns :=
  ⟨by decide, insufficient_columns_error ⟨["a", "b", "c"], []⟩ (by decide)⟩

/-- C5: numeric coercion of `billings` never raises: the text cells
"1,200", "N/A" and the empty string coerce to null, while the text cell
"1500" (or "1500.0") and the numeric cell 1500.0 coerce to the numeric
value 1500. -/
theorem billings_coercion_cases :
    toNumeric (Cell.str "1,200") = none ∧
    toNumeric (Cell.str "N/A") = none ∧
    toNumeric (Cell.str "") = none ∧
    toNumeric (Cell.str "1500") = some 1500 ∧
    toNumeric (Cell.str "1500.0") = some 1500 ∧
    toNumeric (Cell.num 1500) = some 1500 := by
  refine ⟨rfl, rfl, rfl, ?_, ?_, rfl⟩
  · have h : toNumeric (Cell.str "1500") =
        some ((1 : ℚ) * ((1500 : ℕ) : ℚ)) := rfl
    rw [h]
    norm_num
  · have h : toNumeric (Cell.str "1500.0") =
        some ((1 : ℚ) * (((1500 : ℕ) : ℚ) + ((0 : ℕ) : ℚ) / (10 : ℚ) ^ (1 : ℕ))) := rfl
    rw [h]
    norm_num

/-- C10: the forecast path is a pure pass-through: the one write call made
by a `main` run hands the table read from the CSV source to the write
collaborator unmodified, and `upload_forecast`'s own (commented-out) write
makes no call at all. -/
theorem forecast_pass_through (csv : Frame) :
    (mainRun csv).map WriteCall.data_frame = [csv] ∧ upload_forecast csv = [] :=
  ⟨rfl, rfl⟩

/-- C3: for every structurally well-formed raw table (first four column
names distinct, month names non-clashing) one of whose month-column
headers cannot be parsed as a date, `parse_budget` fails with the
`MalformedHeaderError` kind; the error result carries no table, so zero
output rows are emitted. -/
theorem malformed_header_error (c0 c1 c2 c3 : String) (months : List String)
    (rows : List (List Cell))
    (hd : DistinctFirst4 c0 c1 c2 c3) (hm : GoodMonths c0 c1 c2 c3 months)
    (hbad : ∃ m ∈ months, toDatetime m = none) :
    parse_budget ⟨c0 :: c1 :: c2 :: c3 :: months, rows⟩ =
      Except.error ParseErr.malformedHeader := by
  have h1 := rename_and_index_ok c0 c1 c2 c3 months rows hd hm
  have hnone : months.mapM toDatetime = none := mapM_eq_none_of_mem hbad
  have h2 : ∀ ifr : IndexedFrame, ifr.monthCols = months →
      transpose_and_prepare ifr = Except.error ParseErr.malformedHeader := by
    intro ifr hmc
    simp only [transpose_and_prepare, hmc, hnone]
  simp only [parse_budget, h1, exceptBind_ok]
  rw [h2 _ rfl, exceptBind_error]

/-- C3 witness: the month header "not-a-date" makes `parse_budget` fail
with `MalformedHeaderError`. -/
theorem malformed_header_error_witness :
    parse_budget ⟨["A", "B", "C", "D", "not-a-date"],
        [[Cell.str "M1", Cell.str "Monthly", Cell.str "1mo", Cell.str "SMB",
          Cell.num 100]]⟩ = Except.error ParseErr.malformedHeader :=
  malformed_header_error "A" "B" "C" "D" ["not-a-date"]
    [[Cell.str "M1", Cell.str "Monthly", Cell.str "1mo", Cell.str "SMB",
      Cell.num 100]]
    (by decide) (by decide) (by decide)

/-- C6: for every month header the transpose stage's date parse accepts as
(y, m, d), the ds value produced for that header is the canonical `YYYY-MM`
string of y and m — the day is ignored; in particular the headers
"2025-04-15", "Apr-2025" and "2025-04" all parse to year 2025, month 4
(with the day defaulted to 1 where absent) and so all map to
ds = "2025-04". -/
theorem ds_normalization :
    (∀ (ifr : IndexedFrame) (t : TransposedFrame),
        transpose_and_prepare ifr = Except.ok t →
        ∀ (j y m d : Nat), j < ifr.monthCols.length →
          toDatetime (ifr.monthCols.getD j "") = some (y, m, d) →
          t.ds.getD j "" = formatYM y m) ∧
    toDatetime "2025-04-15" = some (2025, 4, 15) ∧
    toDatetime "Apr-2025" = some (2025, 4, 1) ∧
    toDatetime "2025-04" = some (2025, 4, 1) ∧
    formatYM 2025 4 = "2025-04" := by
  refine ⟨?_, rfl, rfl, rfl, rfl⟩
  intro ifr t h j y m d hj hdt
  simp only [transpose_and_prepare] at h
  cases hmapm : ifr.monthCols.mapM toDatetime with
  | none => rw [hmapm] at h; cases h
  | some dates =>
    rw [hmapm] at h
    simp only [Except.ok.injEq] at h
    subst h
    have hjd : j < dates.length := by rw [mapM_some_length hmapm]; exact hj
    have hget := mapM_some_getD "" ((0, 0, 0) : Nat × Nat × Nat) hmapm hj
    rw [hdt] at hget
    have hval : dates.getD j ((0, 0, 0) : Nat × Nat × Nat) = (y, m, d) :=
      (Option.some.inj hget).symm
    show (dates.map (fun p => formatYM p.1 p.2.1)).getD j "" = formatYM y m
    rw [getD_map_of_lt _ _ _ ((0, 0, 0) : Nat × Nat × Nat) hjd, hval]

/-- C6 witness: a concrete one-month table whose header "2025-04-15"
yields ds = "2025-04" in the transposed frame. -/
theorem ds_normalization_witness :
    ({ ds := ["2025-04"], labels := [], data := [[]] } : TransposedFrame).ds.getD 0 ""
      = formatYM 2025 4 :=
  ds_normalization.1 ⟨[], ["2025-04-15"], []⟩ ⟨["2025-04"], [], [[]]⟩ rfl
    0 2025 4 15 (by decide) (by decide)

/-- C7: every row of a successful `parse_budget` output carries the
constant/default metadata values in the canonical column positions:
payment_status "Completed" (1), null previous_subscription_length (5),
license_count 0 (6), billings_per_license 0 (7), the fixed ingestion date
"2025-03-31" as last_updated (9) and data_type "budget" (10). -/
theorem constant_metadata (raw out : Frame)
    (h : parse_budget raw = Except.ok out) :
    ∀ row ∈ out.rows,
      row.getD 1 Cell.null = Cell.str "Completed" ∧
      row.getD 5 Cell.null = Cell.null ∧
      row.getD 6 Cell.null = Cell.num 0 ∧
      row.getD 7 Cell.null = Cell.num 0 ∧
      row.getD 9 Cell.null = Cell.str "2025-03-31" ∧
      row.getD 10 Cell.null = Cell.str "budget" := by
  simp only [parse_budget] at h
  cases hr : rename_and_index raw with
  | error e => rw [hr, exceptBind_error] at h; cases h
  | ok ifr =>
    rw [hr, exceptBind_ok] at h
    cases ht : transpose_and_prepare ifr with
    | error e => rw [ht, exceptBind_error] at h; cases h
    | ok t =>
      rw [ht, exceptBind_ok] at h
      simp only [reorder_columns] at h
      have hcolsEq : (add_metadata (melt_budget t)).cols = cleanColumns ++
          [ColName.plain "payment_status", ColName.plain "previous_subscription_length",
           ColName.plain "license_count", ColName.plain "billings_per_license",
           ColName.plain "last_updated", ColName.plain "data_type"] := rfl
      rw [hcolsEq, if_pos (by decide)] at h
      cases h
      intro row hrow
      simp only [List.mem_map] at hrow
      obtain ⟨mr, hmr, rfl⟩ := hrow
      simp only [add_metadata, List.mem_map] at hmr
      obtain ⟨c, hc, rfl⟩ := hmr
      exact ⟨rfl, rfl, rfl, rfl, rfl, rfl⟩

/-- C7 witness: the output row of a concrete one-row, one-month table
carries all six constant metadata values. -/
theorem constant_metadata_witness :
    ([Cell.str "2025-01", Cell.str "Completed", Cell.str "Monthly",
      Cell.str "SMB", Cell.str "1mo", Cell.null, Cell.num 0, Cell.num 0,
      Cell.num 100, Cell.str "2025-03-31", Cell.str "budget"].getD 1 Cell.null
        = Cell.str "Completed" ∧
     [Cell.str "2025-01", Cell.str "Completed", Cell.str "Monthly",
      Cell.str "SMB", Cell.str "1mo", Cell.null, Cell.num 0, Cell.num 0,
      Cell.num 100, Cell.str "2025-03-31", Cell.str "budget"].getD 5 Cell.null
        = Cell.null ∧
     [Cell.str "2025-01", Cell.str "Completed", Cell.str "Monthly",
      Cell.str "SMB", Cell.str "1mo", Cell.null, Cell.num 0, Cell.num 0,
      Cell.num 100, Cell.str "2025-03-31", Cell.str "budget"].getD 6 Cell.null
        = Cell.num 0 ∧
     [Cell.str "2025-01", Cell.str "Completed", Cell.str "Monthly",
      Cell.str "SMB", Cell.str "1mo", Cell.null, Cell.num 0, Cell.num 0,
      Cell.num 100, Cell.str "2025-03-31", Cell.str "budget"].getD 7 Cell.null
        = Cell.num 0 ∧
     [Cell.str "2025-01", Cell.str "Completed", Cell.str "Monthly",
      Cell.str "SMB", Cell.str "1mo", Cell.null, Cell.num 0, Cell.num 0,
      Cell.num 100, Cell.str "2025-03-31", Cell.str "budget"].getD 9 Cell.null
        = Cell.str "2025-03-31" ∧
     [Cell.str "2025-01", Cell.str "Completed", Cell.str "Monthly",
      Cell.str "SMB", Cell.str "1mo", Cell.null, Cell.num 0, Cell.num 0,
      Cell.num 100, Cell.str "2025-03-31", Cell.str "budget"].getD 10 Cell.null
        = Cell.str "budget") :=
  constant_metadata
    ⟨["A", "B", "C", "D", "2025-01"],
     [[Cell.str "M1", Cell.str "Monthly", Cell.str "1mo", Cell.str "SMB",
       Cell.num 100]]⟩
    ⟨outputColumns,
     [[Cell.str "2025-01", Cell.str "Completed", Cell.str "Monthly",
       Cell.str "SMB", Cell.str "1mo", Cell.null, Cell.num 0, Cell.num 0,
       Cell.num 100, Cell.str "2025-03-31", Cell.str "budget"]]⟩
    rfl
    [Cell.str "2025-01", Cell.str "Completed", Cell.str "Monthly",
     Cell.str "SMB", Cell.str "1mo", Cell.null, Cell.num 0, Cell.num 0,
     Cell.num 100, Cell.str "2025-03-31", Cell.str "budget"]
    (List.mem_singleton.2 rfl)

/-- C8: the metric label component is dropped from the output schema
("metric" is never an output column), and two raw rows that differ only in
their metric value but agree on (payment_type, subscription_length,
company_size, month) produce two separate output rows — no deduplication
or aggregation. -/
theorem metric_dropped_no_dedup :
    (∀ raw out : Frame, parse_budget raw = Except.ok out → "metric" ∉ out.cols) ∧
    parse_budget ⟨["A", "B", "C", "D", "2025-01"],
        [[Cell.str "M1", Cell.str "Monthly", Cell.str "1mo", Cell.str "SMB",
          Cell.num 100],
         [Cell.str "M2", Cell.str "Monthly", Cell.str "1mo", Cell.str "SMB",
          Cell.num 200]]⟩ =
      Except.ok ⟨outputColumns,
        [[Cell.str "2025-01", Cell.str "Completed", Cell.str "Monthly",
          Cell.str "SMB", Cell.str "1mo", Cell.null, Cell.num 0, Cell.num 0,
          Cell.num 100, Cell.str "2025-03-31", Cell.str "budget"],
         [Cell.str "2025-01", Cell.str "Completed", Cell.str "Monthly",
          Cell.str "SMB", Cell.str "1mo", Cell.null, Cell.num 0, Cell.num 0,
          Cell.num 200, Cell.str "2025-03-31", Cell.str "budget"]]⟩ := by
  constructor
  · intro raw out h
    rw [parse_ok_cols raw out h]
    decide
  · rfl

/-- C8 witness: a successful concrete parse whose output schema does not
contain "metric". -/
theorem metric_dropped_no_dedup_witness :
    "metric" ∉ ({ cols := outputColumns, rows := [] } : Frame).cols :=
  metric_dropped_no_dedup.1 ⟨["a", "b", "c", "d"], []⟩ ⟨outputColumns, []⟩ rfl

/-- C9 counterexample: renaming column 1 of a working table from "b" to
"a" (a rename of the first four columns only) changes the result from
success to a KeyError, because the pandas `rename` is keyed by name (the
dict collapses duplicate keys and renames every matching column), not by
position.  So the output is NOT invariant under renaming of the first four
input columns. -/
theorem rename_by_name_counterexample :
    parse_budget ⟨["a", "b", "c", "d", "2025-01"],
        [[Cell.str "M1", Cell.str "Monthly", Cell.str "1mo", Cell.str "SMB",
          Cell.num 100]]⟩ =
      Except.ok ⟨outputColumns,
        [[Cell.str "2025-01", Cell.str "Completed", Cell.str "Monthly",
          Cell.str "SMB", Cell.str "1mo", Cell.null, Cell.num 0, Cell.num 0,
          Cell.num 100, Cell.str "2025-03-31", Cell.str "budget"]]⟩ ∧
    parse_budget ⟨["a", "a", "c", "d", "2025-01"],
        [[Cell.str "M1", Cell.str "Monthly", Cell.str "1mo", Cell.str "SMB",
          Cell.num 100]]⟩ = Except.error ParseErr.keyError ∧
    parse_budget ⟨["a", "b", "c", "d", "2025-01"],
        [[Cell.str "M1", Cell.str "Monthly", Cell.str "1mo", Cell.str "SMB",
          Cell.num 100]]⟩ ≠
      parse_budget ⟨["a", "a", "c", "d", "2025-01"],
        [[Cell.str "M1", Cell.str "Monthly", Cell.str "1mo", Cell.str "SMB",
          Cell.num 100]]⟩ := by
  refine ⟨rfl, rfl, fun heq => ?_⟩
  have heq2 : (Except.ok
      (⟨outputColumns,
        [[Cell.str "2025-01", Cell.str "Completed", Cell.str "Monthly",
          Cell.str "SMB", Cell.str "1mo", Cell.null, Cell.num 0, Cell.num 0,
          Cell.num 100, Cell.str "2025-03-31", Cell.str "budget"]]⟩ : Frame) :
      Except ParseErr Frame) = Except.error ParseErr.keyError := heq
  simp at heq2

/-- C9 (amended): provided the first four column names are pairwise
distinct and the month column names clash neither with them nor with the
canonical label names, the first four columns are mapped to the label
names purely by position, and the output is invariant under renaming the
first four columns to any other names satisfying the same conditions. -/
theorem rename_positional_amended (c0 c1 c2 c3 c0' c1' c2' c3' : String)
    (months : List String) (rows : List (List Cell))
    (hd : DistinctFirst4 c0 c1 c2 c3) (hm : GoodMonths c0 c1 c2 c3 months)
    (hd' : DistinctFirst4 c0' c1' c2' c3')
    (hm' : GoodMonths c0' c1' c2' c3' months) :
    parse_budget ⟨c0 :: c1 :: c2 :: c3 :: months, rows⟩ =
      parse_budget ⟨c0' :: c1' :: c2' :: c3' :: months, rows⟩ := by
  simp only [parse_budget, rename_and_index_ok c0 c1 c2 c3 months rows hd hm,
    rename_and_index_ok c0' c1' c2' c3' months rows hd' hm', exceptBind_ok]

/-- C9 witness: a concrete table parses to the same output after its
first four columns are renamed to fresh distinct names. -/
theorem rename_positional_amended_witness :
    parse_budget ⟨["a", "b", "c", "d", "2025-01"],
        [[Cell.str "M1", Cell.str "Monthly", Cell.str "1mo", Cell.str "SMB",
          Cell.num 100]]⟩ =
      parse_budget ⟨["w", "x", "y", "z", "2025-01"],
        [[Cell.str "M1", Cell.str "Monthly", Cell.str "1mo", Cell.str "SMB",
          Cell.num 100]]⟩ :=
  rename_positional_amended "a" "b" "c" "d" "w" "x" "y" "z" ["2025-01"]
    [[Cell.str "M1", Cell.str "Monthly", Cell.str "1mo", Cell.str "SMB",
      Cell.num 100]]
    (by decide) (by decide) (by decide) (by decide)

end UploadBQ
